import Mathlib

/-!
Verification development for the salivary-microbiome batch health scorer
(`batch_health_scorer.py`).

Modelling conventions (shallow embedding):
* Python floats are modelled as exact rationals (`ℚ`); float literals such as
  `0.20`, `1e-6`, `1e-12` become the corresponding rationals.
* A pandas `Series` of genus abundances is a `List (String × ℚ)`;
  `series.get(g, 0.0)` is `getA`.
* The reference dictionaries `reference_stats.json` and
  `genus_percentiles.json` are records; optional per-genus percentile fields
  use `Option ℚ` because the code reads them with `.get(key, default)`.
* The transcendental functions used by the scorer (`ln`, `exp`, and
  `z ↦ erf (z / sqrt 2)`) are abstracted into an `Oracle` record of
  rational-valued functions, so theorems quantify over every oracle and
  analytic facts (monotonicity of `erf`, `erf 0 = 0`) become explicit
  hypotheses where needed.
* Python `round(x, d)` is banker's rounding (round half to even) of the exact
  rational, modelled by `bankersRound` / `roundTo`.
-/

/-- `np.clip(x, lo, hi)`: clamp below at `lo` first, then above at `hi`. -/
def clipQ (lo hi x : ℚ) : ℚ := min hi (max lo x)

/-- Python `round` to an integer: round half to even (banker's rounding). -/
def bankersRound (x : ℚ) : ℤ :=
  let n := ⌊x⌋
  let f := x - n
  if f < 1/2 then n
  else if 1/2 < f then n + 1
  else if n % 2 = 0 then n else n + 1

/-- Python `round(x, d)`: banker's rounding at `d` decimal digits. -/
def roundTo (d : ℕ) (x : ℚ) : ℚ := (bankersRound (x * 10 ^ d) : ℚ) / 10 ^ d

/-- Reference statistics for one derived metric (one entry of
`reference_stats.json`).  The code reads `median` and `p25` by direct
indexing and `mad`, `mean`, `std` through `.get` with defaults `0`, `0.0`,
`1.0`; a missing key behaves exactly like storing the default, so the fields
are plain rationals. -/
structure MetricStats where
  median : ℚ
  mad : ℚ
  mean : ℚ
  std : ℚ
  p25 : ℚ
deriving DecidableEq

/-- The five metric entries of `reference_stats.json` used by
`analyze_sample`. -/
structure RefStats where
  shannon : MetricStats
  bp_log_ratio : MetricStats
  health_balance : MetricStats
  scfa : MetricStats
  pathogen_load : MetricStats
deriving DecidableEq

/-- One genus entry of `genus_percentiles.json`.  Every field is read via
`.get(key, default)`, so each is optional. -/
structure GenusP where
  p90 : Option ℚ
  p97_5 : Option ℚ
  p99 : Option ℚ
  lod : Option ℚ
deriving DecidableEq

/-- Abstraction of the transcendental functions used by the scorer:
`log` for `np.log`/`math.log`, `exp` for `np.exp`, and `phi z` for
`erf (z / sqrt 2)` as it appears in `robust_percentile`. -/
structure Oracle where
  log : ℚ → ℚ
  exp : ℚ → ℚ
  phi : ℚ → ℚ

/-- A genus-abundance series (pandas `Series` as list of index/value pairs). -/
abbrev Abund := List (String × ℚ)

/-- The `genus_percentiles.json` table: genus name to optional entry. -/
abbrev GPTable := String → Option GenusP

/-- The health-weight table: genus name to optional `HealthWeight`. -/
abbrev WTable := String → Option ℚ

/-- `abund.get(g, 0.0)` on a series. -/
def getA (a : Abund) (g : String) : ℚ :=
  ((a.find? fun p => p.1 == g).map Prod.snd).getD 0

/-- Sum of the values of a series (`abund.sum()`). -/
def sumVals (a : Abund) : ℚ := (a.map Prod.snd).sum

/-- `abund.clip(lower=0) / max(1e-12, abund.sum())` — note the denominator is
the sum of the ORIGINAL series, taken before clipping. -/
def normalizeAbund (a : Abund) : Abund :=
  a.map fun p => (p.1, max 0 p.2 / max (1/10^12) (sumVals a))

/-- `gp.get(g, {}).get("p90", 1.0)` — missing genus or field defaults to the
`1.0` sentinel. -/
def p90D (gp : GPTable) (g : String) : ℚ := ((gp g).bind GenusP.p90).getD 1

/-- `gp.get(g, {}).get("lod", 0.0)`. -/
def lodD (gp : GPTable) (g : String) : ℚ := ((gp g).bind GenusP.lod).getD 0

/-- `gp.get("Fusobacterium", {}).get("p97_5", 0.2)`. -/
def p975D (gp : GPTable) : ℚ :=
  ((gp "Fusobacterium").bind GenusP.p97_5).getD 0.2

/-- `gp.get("Fusobacterium", {}).get("p99", 0.25)` (the code's comment calls
this a safe default for cohorts lacking Fusobacterium). -/
def p99D (gp : GPTable) : ℚ :=
  ((gp "Fusobacterium").bind GenusP.p99).getD 0.25

/-- `robust_percentile(x, stats)` with the erf-based normal CDF abstracted:
`phi z` stands for `erf (z / sqrt 2)`.  Mirrors `stats.get("mad", 0) or 0`,
the direct index `stats["median"]`, `stats.get("mean", 0.0)` and
`stats.get("std", 1.0) or 1.0` (a stored `0.0` falls back to `1.0`). -/
def robust_percentile (phi : ℚ → ℚ) (x : ℚ) (s : MetricStats) : ℚ :=
  let z := if 0 < s.mad then 0.6745 * (x - s.median) / s.mad
           else (x - s.mean) / (if s.std = 0 then 1 else s.std)
  clipQ 0 100 (50 * (1 + phi z))

/-- The curated health-core genus set (`HEALTH_CORE`). -/
def HEALTH_CORE : List String :=
  ["Streptococcus", "Neisseria", "Rothia", "Haemophilus",
   "Granulicatella", "Actinomyces", "Veillonella", "Gemella"]

/-- The curated disease-core genus set (`DISEASE_CORE`). -/
def DISEASE_CORE : List String :=
  ["Fusobacterium", "Porphyromonas", "Tannerella", "Treponema",
   "Prevotella", "Peptostreptococcus", "Parvimonas", "Leptotrichia",
   "Campylobacter"]

/-- The Fusobacterium synergy genus set (`FUSO_SYNERGY`). -/
def FUSO_SYNERGY : List String :=
  ["Peptostreptococcus", "Parvimonas", "Leptotrichia", "Prevotella",
   "Campylobacter"]

/-- The fixed SCFA-producer genus set (`SCFA_SET`). -/
def SCFA_SET : List String :=
  ["Veillonella", "Prevotella", "Eubacterium", "Propionibacterium",
   "Megasphaera"]

/-- The red-complex genus list of the periodontitis panel. -/
def RED_COMPLEX : List String := ["Porphyromonas", "Tannerella", "Treponema"]

/-- The epsilon used for log smoothing (`eps = 1e-6`). -/
def epsQ : ℚ := 1/1000000

/-- `safe_gmean`: `exp` of the mean of `log` applied to the values with exact
zeros replaced by `eps = 1e-6`. -/
def safe_gmean (O : Oracle) (vals : List ℚ) : ℚ :=
  O.exp ((vals.map fun v => O.log (if v = 0 then epsQ else v)).sum / vals.length)

/-- Coverage assessor, "considered" count: genera with positive abundance or a
positive LOD. -/
def consideredCount (a : Abund) (gp : GPTable) : ℕ :=
  (a.filter fun p => decide (0 < p.2) || decide (0 < lodD gp p.1)).length

/-- Coverage assessor, "above LOD" count: considered genera whose abundance is
at least `max(lod, 0.0)`. -/
def aboveLodCount (a : Abund) (gp : GPTable) : ℕ :=
  (a.filter fun p =>
    (decide (0 < p.2) || decide (0 < lodD gp p.1))
      && decide (max (lodD gp p.1) 0 ≤ p.2)).length

/-- `coverage = above_lod / max(1, total_considered)`. -/
def coverageOf (a : Abund) (gp : GPTable) : ℚ :=
  (aboveLodCount a gp : ℚ) / ((max 1 (consideredCount a gp) : ℕ) : ℚ)

/-- Shannon diversity `-Σ pᵢ ln pᵢ` over the strictly positive entries
(`0.0` when none are positive, since the empty sum is `0`). -/
def shannonOf (O : Oracle) (a : Abund) : ℚ :=
  -(((a.filter fun p => decide (0 < p.2)).map fun p => p.2 * O.log p.2).sum)

/-- Sum of abundances over genera with a strictly positive health weight. -/
def benefOf (w : WTable) (a : Abund) : ℚ :=
  ((a.filter fun p => decide (0 < ((w p.1).getD 0))).map Prod.snd).sum

/-- Sum of abundances over genera with a strictly negative health weight. -/
def pathoOf (w : WTable) (a : Abund) : ℚ :=
  ((a.filter fun p => decide (((w p.1).getD 0) < 0)).map Prod.snd).sum

/-- Sum of abundances over the fixed SCFA genus set. -/
def scfaOf (a : Abund) : ℚ :=
  ((a.filter fun p => SCFA_SET.contains p.1).map Prod.snd).sum

/-- `bp_lr = ln((benef + eps) / (patho + eps))`. -/
def bpLrOf (O : Oracle) (w : WTable) (a : Abund) : ℚ :=
  O.log ((benefOf w a + epsQ) / (pathoOf w a + epsQ))

/-- Geometric mean of the sample over the health core
(`safe_gmean(abund.reindex(HEALTH_CORE, fill_value=0))`). -/
def hcOf (O : Oracle) (a : Abund) : ℚ := safe_gmean O (HEALTH_CORE.map (getA a))

/-- Geometric mean of the sample over the disease core. -/
def dcOf (O : Oracle) (a : Abund) : ℚ := safe_gmean O (DISEASE_CORE.map (getA a))

/-- `health_balance_raw = ln((hc + eps) / (dc + eps))`. -/
def healthBalanceRaw (O : Oracle) (a : Abund) : ℚ :=
  O.log ((hcOf O a + epsQ) / (dcOf O a + epsQ))

/-- Percentile score `sh` of Shannon diversity. -/
def shP (O : Oracle) (a : Abund) (rs : RefStats) : ℚ :=
  robust_percentile O.phi (shannonOf O a) rs.shannon

/-- Percentile score `ra` of the beneficial/pathogenic log-ratio. -/
def raP (O : Oracle) (w : WTable) (a : Abund) (rs : RefStats) : ℚ :=
  robust_percentile O.phi (bpLrOf O w a) rs.bp_log_ratio

/-- Percentile score `hb` of the health/disease core balance. -/
def hbP (O : Oracle) (a : Abund) (rs : RefStats) : ℚ :=
  robust_percentile O.phi (healthBalanceRaw O a) rs.health_balance

/-- Percentile score `sc` of SCFA-producer abundance. -/
def scP (O : Oracle) (a : Abund) (rs : RefStats) : ℚ :=
  robust_percentile O.phi (scfaOf a) rs.scfa

/-- Inverted pathogen-load score `pa = 100 - robust_percentile(patho, ...)`. -/
def paP (O : Oracle) (w : WTable) (a : Abund) (rs : RefStats) : ℚ :=
  100 - robust_percentile O.phi (pathoOf w a) rs.pathogen_load

/-- A fired risk-panel record (`RiskResult`). -/
structure RiskRec where
  level : String
  marker : String
  panel_score : ℚ
  threshold : ℚ
deriving DecidableEq

/-- Fusobacterium abundance `abund.get("Fusobacterium", 0.0)`. -/
def fusoOf (a : Abund) : ℚ := getA a "Fusobacterium"

/-- `synergy_hits`: number of synergy genera at/above their own p90 (missing
genus defaults to the 1.0 sentinel). -/
def synergyHits (a : Abund) (gp : GPTable) : ℕ :=
  (FUSO_SYNERGY.filter fun g => decide (p90D gp g ≤ getA a g)).length

/-- `sum(abund.get(g, 0.0) for g in FUSO_SYNERGY)`. -/
def synergySum (a : Abund) : ℚ := (FUSO_SYNERGY.map (getA a)).sum

/-- `red_hits`: number of red-complex genera at/above their own p90. -/
def redHits (a : Abund) (gp : GPTable) : ℕ :=
  (RED_COMPLEX.filter fun g => decide (p90D gp g ≤ getA a g)).length

/-- `sum(abund.get(g, 0.0) for g in red)`. -/
def redSum (a : Abund) : ℚ := (RED_COMPLEX.map (getA a)).sum

/-- `low_diversity = shannon <= sh_p25`. -/
def lowDiversityB (O : Oracle) (a : Abund) (rs : RefStats) : Bool :=
  decide (shannonOf O a ≤ rs.shannon.p25)

/-- `health_suppressed = hb < 40.0`. -/
def healthSuppressedB (O : Oracle) (a : Abund) (rs : RefStats) : Bool :=
  decide (hbP O a rs < 40)

/-- Path C: `oscc_extreme = fuso >= max(f_p99, 0.20)`. -/
def osccExtremeB (a : Abund) (gp : GPTable) : Bool :=
  decide (max (p99D gp) 0.20 ≤ fusoOf a)

/-- `oscc_high = fuso >= f_p975 and (synergy_hits >= 1 or low_diversity or
health_suppressed)`. -/
def osccHighB (O : Oracle) (a : Abund) (rs : RefStats) (gp : GPTable) : Bool :=
  decide (p975D gp ≤ fusoOf a)
    && (decide (1 ≤ synergyHits a gp) || lowDiversityB O a rs
        || healthSuppressedB O a rs)

/-- The oral-cancer panel entries of the `risks` dict: the extreme override
takes precedence over the contextual path (if/elif in the source); both paths
record `threshold = f_p975`. -/
def osccRisks (O : Oracle) (a : Abund) (rs : RefStats) (gp : GPTable) :
    List (String × RiskRec) :=
  if osccExtremeB a gp then
    [("Oral Cancer (OSCC)",
      { level := "High", marker := "Fusobacterium (extreme)",
        panel_score := roundTo 4 (fusoOf a), threshold := p975D gp })]
  else if osccHighB O a rs gp then
    [("Oral Cancer (OSCC)",
      { level := if 2 ≤ synergyHits a gp then "High" else "Moderate",
        marker := "Fusobacterium + co-factors",
        panel_score := roundTo 4 (fusoOf a + 0.5 * synergySum a),
        threshold := p975D gp })]
  else []

/-- The periodontitis (red-complex) panel entry: fires when
`red_hits >= 2`, with the fixed recorded threshold `0.02`. -/
def perioRisks (a : Abund) (gp : GPTable) : List (String × RiskRec) :=
  if 2 ≤ redHits a gp then
    [("Periodontitis (Red Complex)",
      { level := if redHits a gp = 2 then "Moderate" else "High",
        marker := "Porphyromonas/Tannerella/Treponema",
        panel_score := roundTo 4 (redSum a), threshold := 0.02 })]
  else []

/-- The halitosis firing condition: Solobacterium at/above its p90, or high
Fusobacterium together with low diversity. -/
def haliCondB (O : Oracle) (a : Abund) (rs : RefStats) (gp : GPTable) : Bool :=
  decide (p90D gp "Solobacterium" ≤ getA a "Solobacterium")
    || (decide (p975D gp ≤ fusoOf a) && lowDiversityB O a rs)

/-- The halitosis panel entry, with the fixed recorded threshold `0.01`. -/
def haliRisks (O : Oracle) (a : Abund) (rs : RefStats) (gp : GPTable) :
    List (String × RiskRec) :=
  if haliCondB O a rs gp then
    [("Halitosis (VSC)",
      { level := "Moderate", marker := "Solobacterium/Fusobacterium context",
        panel_score := roundTo 4 (getA a "Solobacterium" + 0.5 * fusoOf a),
        threshold := 0.01 })]
  else []

/-- The `risks` dict in insertion order: OSCC, periodontitis, halitosis. -/
def risksOf (O : Oracle) (a : Abund) (rs : RefStats) (gp : GPTable) :
    List (String × RiskRec) :=
  osccRisks O a rs gp ++ perioRisks a gp ++ haliRisks O a rs gp

/-- Dict key membership (`"..." in risks`). -/
def hasKey (l : List (String × RiskRec)) (k : String) : Bool :=
  l.any fun p => p.1 == k

/-- Dict lookup returning the stored record. -/
def lookupRisk (l : List (String × RiskRec)) (k : String) : Option RiskRec :=
  (l.find? fun p => p.1 == k).map Prod.snd

/-- The decision-trace lines appended while evaluating the risk panels. -/
def riskTrace (O : Oracle) (a : Abund) (rs : RefStats) (gp : GPTable) :
    List String :=
  (if osccExtremeB a gp then ["OSCC: extreme Fusobacterium (≥p99 or ≥0.20)"]
   else if osccHighB O a rs gp then
     ["OSCC: high Fusobacterium (≥p97.5) + synergy/low-diversity/health-core suppression"]
   else [])
  ++ (if 2 ≤ redHits a gp then
        ["Periodontitis: " ++ toString (redHits a gp)
          ++ "/3 red-complex genera ≥ p90"]
      else [])
  ++ (if haliCondB O a rs gp then
        ["Halitosis: Solobacterium ≥ p90 or high Fuso + low diversity"]
      else [])

/-- The weighted composite before the dominance cap, with the fixed blend
weights `{shannon: 0.20, ratio: 0.25, health_balance: 0.20, scfa: 0.15,
pathogen: 0.20}`. -/
def compositeRaw (O : Oracle) (w : WTable) (a : Abund) (rs : RefStats) : ℚ :=
  0.20 * shP O a rs + 0.25 * raP O w a rs + 0.20 * hbP O a rs
    + 0.15 * scP O a rs + 0.20 * paP O w a rs

/-- Whether the oral-cancer panel is present in `risks`. -/
def hasOscc (O : Oracle) (a : Abund) (rs : RefStats) (gp : GPTable) : Bool :=
  hasKey (risksOf O a rs gp) "Oral Cancer (OSCC)"

/-- The composite after the dominance cap
(`composite = min(composite, 50.0)` when the OSCC panel fired). -/
def compositeOf (O : Oracle) (w : WTable) (a : Abund) (rs : RefStats)
    (gp : GPTable) : ℚ :=
  if hasOscc O a rs gp then min (compositeRaw O w a rs) 50
  else compositeRaw O w a rs

/-- `np.interp(composite, [35, 50, 70], [-4, 0, 4])`: piecewise-linear between
the knots, and CONSTANT at the boundary `fp` values outside the knot range
(numpy interp does not extrapolate). -/
def interpKnots (c : ℚ) : ℚ :=
  if c ≤ 35 then -4
  else if c ≤ 50 then -4 + (c - 35) * (4 / 15)
  else if c ≤ 70 then (c - 50) * (4 / 20)
  else 4

/-- `chi = np.clip(np.interp(composite, [35,50,70], [-4,0,4]), -10, 10)`. -/
def chiOfComposite (c : ℚ) : ℚ := clipQ (-10) 10 (interpKnots c)

/-- Refinement model of the spec's words for the composite-to-index map:
piecewise-linear through the knots `(35, -4), (50, 0), (70, 4)` with linear
continuation of the boundary segments beyond the outer knots, then clamped to
`[-10, 10]`.  This follows the spec's description, to be compared with
`chiOfComposite` (the numpy semantics of the source). -/
def chiSpecLinearExtrap (c : ℚ) : ℚ :=
  clipQ (-10) 10 (if c ≤ 50 then -4 + (c - 35) * (4 / 15) else (c - 50) * (4 / 20))

/-- The `health_category` sub-record of the result. -/
structure Category where
  label : String
  color : String
deriving DecidableEq

/-- The `key_metrics` sub-record of the result. -/
structure KeyMetrics where
  shannon_diversity : ℚ
  beneficial_pathogen_log_ratio : ℚ
  health_balance : ℚ
  scfa_producer_abundance : ℚ
  pathogen_load : ℚ
  coverage_lod : ℚ
deriving DecidableEq

/-- The per-sample result record returned by `analyze_sample`. -/
structure AnalysisResult where
  clinical_health_index : ℚ
  health_category : Category
  key_metrics : KeyMetrics
  composite_score : ℚ
  disease_risks : List (String × RiskRec)
  raw_abundances : Abund
  decision_trace : List String
deriving DecidableEq

/-- The category label from the clinical health index and the abstain flag. -/
def categoryOf (abstain : Bool) (chi : ℚ) : String :=
  if abstain then "Needs review"
  else if 3 ≤ chi then "Excellent"
  else if 1 ≤ chi then "Good"
  else if -1 ≤ chi then "Average"
  else if -3 ≤ chi then "Below Average"
  else "Non-Ideal"

/-- The category color from the abstain flag and the label. -/
def colorOf (abstain : Bool) (category : String) : String :=
  if abstain then "grey"
  else if category = "Excellent" ∨ category = "Good" then "green"
  else if category = "Average" then "yellow"
  else "red"

/-- The abstain trace line, with the coverage formatted as a whole percent
(Python `f"{coverage:.0%}"`). -/
def abstainTrace (coverage : ℚ) : String :=
  "Abstain: low coverage (" ++ toString (bankersRound (100 * coverage))
    ++ "% genera ≥ LOD)"

/-- `analyze_sample(abund, ref_stats, weights_df, gp)`: the whole per-sample
decision engine, assembled from the stage functions above in source order. -/
def analyzeSample (O : Oracle) (abund0 : Abund) (rs : RefStats) (w : WTable)
    (gp : GPTable) : AnalysisResult :=
  let a := normalizeAbund abund0
  let coverage := coverageOf a gp
  let abstain := decide (coverage < 0.4)
  let composite := compositeOf O w a rs gp
  let chi := chiOfComposite composite
  let category := categoryOf abstain chi
  { clinical_health_index := roundTo 2 chi
    health_category := { label := category, color := colorOf abstain category }
    key_metrics :=
      { shannon_diversity := roundTo 3 (shannonOf O a)
        beneficial_pathogen_log_ratio := roundTo 3 (bpLrOf O w a)
        health_balance := roundTo 3 (healthBalanceRaw O a)
        scfa_producer_abundance := roundTo 4 (scfaOf a)
        pathogen_load := roundTo 4 (pathoOf w a)
        coverage_lod := roundTo 3 coverage }
    composite_score := roundTo 1 composite
    disease_risks := risksOf O a rs gp
    raw_abundances := a
    decision_trace :=
      riskTrace O a rs gp
        ++ (if hasOscc O a rs gp then
              ["Dominance: OSCC risk capped composite at 50"]
            else [])
        ++ (if abstain then [abstainTrace coverage] else []) }

/-! ### Concrete fixtures for witnesses and counterexamples -/

/-- A concrete rational oracle used to instantiate closed statements: `log`
and `exp` are the identity, and `phi` is a monotone stand-in for
`erf (z / sqrt 2)` with `phi 0 = 0` and range `[-1, 1]`. -/
def ratOracle : Oracle :=
  { log := fun q => q, exp := fun q => q, phi := fun z => max (-1) (min 1 z) }

/-- A percentile table with every genus absent. -/
def noneGp : GPTable := fun _ => none

/-- An empty health-weight table (the fallback path never used here). -/
def noneW : WTable := fun _ => none

/-- A simple reference-stat record: median 0, mad 1, mean 0, std 1, p25 0. -/
def cexStats : MetricStats := { median := 0, mad := 1, mean := 0, std := 1, p25 := 0 }

/-- Reference stats using `cexStats` for all five metrics. -/
def cexRs : RefStats :=
  { shannon := cexStats, bp_log_ratio := cexStats, health_balance := cexStats,
    scfa := cexStats, pathogen_load := cexStats }

/-- Sample with 30% Fusobacterium (above the 0.25 default p99). -/
def abundFuso : Abund := [("Fusobacterium", 3/10), ("Streptococcus", 7/10)]

/-- Percentile table where only the three red-complex genera appear, each with
p90 = 0.1. -/
def gpRed : GPTable := fun g =>
  if g = "Porphyromonas" ∨ g = "Tannerella" ∨ g = "Treponema" then
    some { p90 := some (1/10), p97_5 := none, p99 := none, lod := none }
  else none

/-- Sample with two red-complex genera each at 50%. -/
def abundRed : Abund := [("Porphyromonas", 1/2), ("Tannerella", 1/2)]

/-- Percentile table with a Fusobacterium entry: p97.5 = 0.1, p99 = 0.15. -/
def gpFusoLow : GPTable := fun g =>
  if g = "Fusobacterium" then
    some { p90 := none, p97_5 := some (1/10), p99 := some (3/20), lod := none }
  else none

/-- Sample with 50% Fusobacterium. -/
def abundFusoHigh : Abund := [("Fusobacterium", 1/2), ("Streptococcus", 1/2)]

/-- Percentile table where every genus has LOD 0.9 (so nothing is detected). -/
def gpHighLod : GPTable := fun _ =>
  some { p90 := none, p97_5 := none, p99 := none, lod := some (9/10) }

/-- A two-genus sample below every LOD of `gpHighLod`. -/
def abundLowCov : Abund := [("A", 1/2), ("B", 1/2)]

/-! ### Helper lemmas -/

theorem getA_cons (g k : String) (v : ℚ) (l : Abund) :
    getA ((g, v) :: l) k = if g = k then v else getA l k := by
  unfold getA
  rcases eq_or_ne g k with h | h
  · subst h
    simp [List.find?]
  · have hb : (g == k) = false := beq_eq_false_iff_ne.mpr h
    simp [List.find?, hb, h]

theorem getA_nil (k : String) : getA [] k = 0 := rfl

theorem clipQ_mono {lo hi a b : ℚ} (h : a ≤ b) : clipQ lo hi a ≤ clipQ lo hi b :=
  min_le_min le_rfl (max_le_max le_rfl h)

theorem clipQ_mem (lo hi x : ℚ) (h : lo ≤ hi) :
    lo ≤ clipQ lo hi x ∧ clipQ lo hi x ≤ hi :=
  ⟨le_min h (le_max_left lo x), min_le_left hi _⟩

theorem robust_percentile_bounds (phi : ℚ → ℚ) (x : ℚ) (s : MetricStats) :
    0 ≤ robust_percentile phi x s ∧ robust_percentile phi x s ≤ 100 :=
  clipQ_mem 0 100 _ (by norm_num)

theorem bankersRound_le_ceil (x : ℚ) : bankersRound x ≤ ⌈x⌉ := by
  have hfc : ⌊x⌋ ≤ ⌈x⌉ := Int.floor_le_ceil x
  simp only [bankersRound]
  split_ifs with h1 h2 h3
  · exact hfc
  · exact Int.add_one_le_iff.mpr (Int.lt_ceil.mpr (by linarith [not_lt.mp h1]))
  · exact hfc
  · exact Int.add_one_le_iff.mpr (Int.lt_ceil.mpr (by linarith [not_lt.mp h1]))

theorem floor_le_bankersRound (x : ℚ) : ⌊x⌋ ≤ bankersRound x := by
  simp only [bankersRound]
  split_ifs <;> omega

theorem roundTo_le_int (d : ℕ) (x : ℚ) (m : ℤ) (h : x ≤ (m : ℚ)) :
    roundTo d x ≤ (m : ℚ) := by
  unfold roundTo
  have h10 : (0 : ℚ) < 10 ^ d := by positivity
  rw [div_le_iff₀ h10]
  have h1 : x * 10 ^ d ≤ ((m * 10 ^ d : ℤ) : ℚ) := by
    push_cast
    exact mul_le_mul_of_nonneg_right h h10.le
  have h2 : bankersRound (x * 10 ^ d) ≤ m * 10 ^ d :=
    le_trans (bankersRound_le_ceil _) (Int.ceil_le.mpr h1)
  calc (bankersRound (x * 10 ^ d) : ℚ) ≤ ((m * 10 ^ d : ℤ) : ℚ) := by exact_mod_cast h2
    _ = (m : ℚ) * 10 ^ d := by push_cast; ring

theorem int_le_roundTo (d : ℕ) (x : ℚ) (m : ℤ) (h : (m : ℚ) ≤ x) :
    (m : ℚ) ≤ roundTo d x := by
  unfold roundTo
  have h10 : (0 : ℚ) < 10 ^ d := by positivity
  rw [le_div_iff₀ h10]
  have h1 : ((m * 10 ^ d : ℤ) : ℚ) ≤ x * 10 ^ d := by
    push_cast
    exact mul_le_mul_of_nonneg_right h h10.le
  have h2 : m * 10 ^ d ≤ bankersRound (x * 10 ^ d) :=
    le_trans (Int.le_floor.mpr h1) (floor_le_bankersRound _)
  calc (m : ℚ) * 10 ^ d = ((m * 10 ^ d : ℤ) : ℚ) := by push_cast; ring
    _ ≤ (bankersRound (x * 10 ^ d) : ℚ) := by exact_mod_cast h2

theorem analyzeSample_disease_risks (O : Oracle) (a0 : Abund) (rs : RefStats)
    (w : WTable) (gp : GPTable) :
    (analyzeSample O a0 rs w gp).disease_risks
      = risksOf O (normalizeAbund a0) rs gp := rfl

theorem analyzeSample_composite_score (O : Oracle) (a0 : Abund) (rs : RefStats)
    (w : WTable) (gp : GPTable) :
    (analyzeSample O a0 rs w gp).composite_score
      = roundTo 1 (compositeOf O w (normalizeAbund a0) rs gp) := rfl

theorem analyzeSample_chi (O : Oracle) (a0 : Abund) (rs : RefStats)
    (w : WTable) (gp : GPTable) :
    (analyzeSample O a0 rs w gp).clinical_health_index
      = roundTo 2 (chiOfComposite (compositeOf O w (normalizeAbund a0) rs gp)) := rfl

theorem analyzeSample_label (O : Oracle) (a0 : Abund) (rs : RefStats)
    (w : WTable) (gp : GPTable) :
    (analyzeSample O a0 rs w gp).health_category.label
      = categoryOf (decide (coverageOf (normalizeAbund a0) gp < 0.4))
          (chiOfComposite (compositeOf O w (normalizeAbund a0) rs gp)) := rfl

theorem analyzeSample_color (O : Oracle) (a0 : Abund) (rs : RefStats)
    (w : WTable) (gp : GPTable) :
    (analyzeSample O a0 rs w gp).health_category.color
      = colorOf (decide (coverageOf (normalizeAbund a0) gp < 0.4))
          (categoryOf (decide (coverageOf (normalizeAbund a0) gp < 0.4))
            (chiOfComposite (compositeOf O w (normalizeAbund a0) rs gp))) := rfl

theorem analyzeSample_trace (O : Oracle) (a0 : Abund) (rs : RefStats)
    (w : WTable) (gp : GPTable) :
    (analyzeSample O a0 rs w gp).decision_trace
      = riskTrace O (normalizeAbund a0) rs gp
        ++ (if hasOscc O (normalizeAbund a0) rs gp then
              ["Dominance: OSCC risk capped composite at 50"]
            else [])
        ++ (if decide (coverageOf (normalizeAbund a0) gp < 0.4) then
              [abstainTrace (coverageOf (normalizeAbund a0) gp)]
            else []) := rfl

theorem lookupRisk_risksOf_perio (O : Oracle) (a : Abund) (rs : RefStats) (gp : GPTable) :
    lookupRisk (risksOf O a rs gp) "Periodontitis (Red Complex)"
      = lookupRisk (perioRisks a gp) "Periodontitis (Red Complex)" := by
  unfold risksOf osccRisks haliRisks lookupRisk
  split_ifs <;> simp [List.find?_append, List.find?]

theorem lookupRisk_risksOf_oscc (O : Oracle) (a : Abund) (rs : RefStats) (gp : GPTable) :
    lookupRisk (risksOf O a rs gp) "Oral Cancer (OSCC)"
      = lookupRisk (osccRisks O a rs gp) "Oral Cancer (OSCC)" := by
  unfold risksOf perioRisks haliRisks lookupRisk
  split_ifs <;> simp [List.find?_append, List.find?]

theorem lookupRisk_risksOf_hali (O : Oracle) (a : Abund) (rs : RefStats) (gp : GPTable) :
    lookupRisk (risksOf O a rs gp) "Halitosis (VSC)"
      = lookupRisk (haliRisks O a rs gp) "Halitosis (VSC)" := by
  unfold risksOf osccRisks perioRisks lookupRisk
  split_ifs <;> simp [List.find?_append, List.find?]

theorem hasKey_risksOf_perio (O : Oracle) (a : Abund) (rs : RefStats) (gp : GPTable) :
    hasKey (risksOf O a rs gp) "Periodontitis (Red Complex)"
      = decide (2 ≤ redHits a gp) := by
  unfold risksOf osccRisks haliRisks perioRisks hasKey
  split_ifs with h1 h2 <;> simp_all [List.any_append]

/-- Concrete evaluation: the `abundRed` sample scores exactly 2 red-complex
hits against `gpRed`. -/
theorem redHits_abundRed : redHits (normalizeAbund abundRed) gpRed = 2 := by
  have hgP : getA (normalizeAbund abundRed) "Porphyromonas" = 1/2 := by
    simp [getA_cons, getA_nil, normalizeAbund, abundRed, sumVals]
    norm_num [max_def]
  have hgT : getA (normalizeAbund abundRed) "Tannerella" = 1/2 := by
    simp [getA_cons, getA_nil, normalizeAbund, abundRed, sumVals]
    norm_num [max_def]
  have hgTr : getA (normalizeAbund abundRed) "Treponema" = 0 := by
    simp [getA_cons, getA_nil, normalizeAbund, abundRed, sumVals]
  have hpP : p90D gpRed "Porphyromonas" = 1/10 := by simp [p90D, gpRed]
  have hpT : p90D gpRed "Tannerella" = 1/10 := by simp [p90D, gpRed]
  have hpTr : p90D gpRed "Treponema" = 1/10 := by simp [p90D, gpRed]
  norm_num [redHits, RED_COMPLEX, List.filter_cons, List.filter_nil,
    hpP, hpT, hpTr, hgP, hgT, hgTr]

/-! ### Claims -/

/-- C8: for fixed `MetricStats` (requiring a positive spread parameter:
`mad > 0`, or `std > 0` when the mean/std fallback branch is taken) and a
monotone CDF kernel `phi` (true of `z ↦ erf (z / sqrt 2)`), the percentile
function `robust_percentile` is monotonically non-decreasing in its value
argument. -/
theorem C8_percentile_monotone (phi : ℚ → ℚ) (s : MetricStats)
    (hphi : Monotone phi) (hs : 0 < s.mad ∨ 0 < s.std) :
    ∀ x y : ℚ, x ≤ y → robust_percentile phi x s ≤ robust_percentile phi y s := by
  intro x y hxy
  unfold robust_percentile
  apply clipQ_mono
  have hz : (if 0 < s.mad then 0.6745 * (x - s.median) / s.mad
             else (x - s.mean) / (if s.std = 0 then 1 else s.std))
          ≤ (if 0 < s.mad then 0.6745 * (y - s.median) / s.mad
             else (y - s.mean) / (if s.std = 0 then 1 else s.std)) := by
    have hdiv : ∀ a b c : ℚ, a ≤ b → 0 < c → a / c ≤ b / c := by
      intro a b c hab hc
      rw [div_le_div_iff₀ hc hc]
      nlinarith
    by_cases hm : 0 < s.mad
    · simp only [hm, if_true]
      have hnum : 0.6745 * (x - s.median) ≤ 0.6745 * (y - s.median) := by nlinarith
      exact hdiv _ _ _ hnum hm
    · simp only [hm, if_false]
      have hstd : 0 < s.std := hs.resolve_left hm
      rw [if_neg (ne_of_gt hstd)]
      have hnum : x - s.mean ≤ y - s.mean := by linarith
      exact hdiv _ _ _ hnum hstd
  have := hphi hz
  nlinarith [this]

/-- C8 witness: a concrete monotone instance, evaluated at `x = 1 ≤ y = 2`
with `mad = 1 > 0`. -/
theorem C8_percentile_monotone_witness :
    robust_percentile (fun z => z) 1 cexStats
      ≤ robust_percentile (fun z => z) 2 cexStats :=
  C8_percentile_monotone (fun z => z) cexStats monotone_id
    (Or.inl (by norm_num [cexStats])) 1 2 one_le_two

/-- C9: when `mad > 0` and the CDF kernel satisfies `phi 0 = 0` (true of
`z ↦ erf (z / sqrt 2)`), the percentile of the record's own median is exactly
`50.0` (hence within the claimed `1e-6` tolerance). -/
theorem C9_percentile_at_median (phi : ℚ → ℚ) (s : MetricStats)
    (hm : 0 < s.mad) (h0 : phi 0 = 0) :
    robust_percentile phi s.median s = 50 := by
  unfold robust_percentile
  rw [if_pos hm, show (0.6745 * (s.median - s.median) / s.mad : ℚ) = 0 by ring]
  show clipQ 0 100 (50 * (1 + phi 0)) = 50
  rw [h0]
  norm_num [clipQ, min_def, max_def]

/-- C9 witness: concrete stats with `mad = 1 > 0` and the identity kernel. -/
theorem C9_percentile_at_median_witness :
    robust_percentile (fun z => z) cexStats.median cexStats = 50 :=
  C9_percentile_at_median (fun z => z) cexStats (by norm_num [cexStats]) rfl

/-- C2 counterexample: at composite value `0` the code (numpy `interp`, which
holds the boundary knot value) yields `-4`, while the spec's
linear-continuation-then-clamp mapping yields `-10`; the claimed equality
fails. -/
theorem C2_chi_counterexample :
    chiOfComposite 0 = -4 ∧ chiSpecLinearExtrap 0 = -10
      ∧ ¬ chiOfComposite 0 = chiSpecLinearExtrap 0 := by
  norm_num [chiOfComposite, chiSpecLinearExtrap, interpKnots, clipQ, min_def, max_def]

/-- C2 amended: between the outer knots the index is the claimed
piecewise-linear interpolation (and there the `[-10, 10]` clamp is inactive),
but beyond the outer knots numpy holds the boundary values `-4` / `+4`
instead of linear continuation, so the clamp is never reached. -/
theorem C2_chi_amended (c : ℚ) :
    (c ≤ 35 → chiOfComposite c = -4)
      ∧ (35 ≤ c → c ≤ 70 → chiOfComposite c = chiSpecLinearExtrap c)
      ∧ (70 ≤ c → chiOfComposite c = 4) := by
  unfold chiOfComposite chiSpecLinearExtrap interpKnots clipQ
  refine ⟨fun h => ?_, fun h35 h70 => ?_, fun h => ?_⟩
  · rw [if_pos h]
    norm_num [min_def, max_def]
  · by_cases h50 : c ≤ 50
    · by_cases h35e : c ≤ 35
      · have hc : c = 35 := le_antisymm h35e h35
        subst hc
        norm_num [min_def, max_def]
      · rw [if_neg h35e, if_pos h50]
        have hv1 : (-10 : ℚ) ≤ -4 + (c - 35) * (4 / 15) := by
          nlinarith [not_le.mp h35e]
        have hv2 : (-4 : ℚ) + (c - 35) * (4 / 15) ≤ 10 := by nlinarith
        rw [max_eq_right hv1, min_eq_right hv2, if_pos h50,
          max_eq_right hv1, min_eq_right hv2]
    · rw [if_neg (by linarith : ¬ c ≤ 35), if_neg h50, if_pos h70]
      have hv1 : (-10 : ℚ) ≤ (c - 50) * (4 / 20) := by nlinarith [not_le.mp h50]
      have hv2 : (c - 50) * (4 / 20) ≤ 10 := by nlinarith
      rw [max_eq_right hv1, min_eq_right hv2, if_neg h50,
        max_eq_right hv1, min_eq_right hv2]
  · by_cases h70e : c ≤ 70
    · have hc : c = 70 := le_antisymm h70e h
      subst hc
      norm_num [min_def, max_def]
    · rw [if_neg (by linarith : ¬ c ≤ 35), if_neg (by linarith : ¬ c ≤ 50),
        if_neg h70e]
      norm_num [min_def, max_def]

/-- C2 amended witness: the three cases evaluated at composites 20, 40, 80. -/
theorem C2_chi_amended_witness :
    chiOfComposite 20 = -4
      ∧ chiOfComposite 40 = chiSpecLinearExtrap 40
      ∧ chiOfComposite 80 = 4 :=
  ⟨(C2_chi_amended 20).1 (by norm_num),
   (C2_chi_amended 40).2.1 (by norm_num) (by norm_num),
   (C2_chi_amended 80).2.2 (by norm_num)⟩

/-- Sum of a mapped series whose values are all nonnegative, divided by a
common denominator. -/
theorem sumVals_map_div (l : Abund) (c : ℚ) (hl : ∀ p ∈ l, 0 ≤ p.2) :
    sumVals (l.map fun p => (p.1, max 0 p.2 / c)) = sumVals l / c := by
  induction l with
  | nil => simp [sumVals]
  | cons hd tl ih =>
    have hhd : max 0 hd.2 = hd.2 := max_eq_right (hl hd (List.mem_cons_self hd tl))
    have htl := ih fun p hp => hl p (List.mem_cons_of_mem hd hp)
    simp only [List.map_cons, sumVals, List.map, List.sum_cons] at htl ⊢
    rw [hhd, htl]
    ring

/-- C3 counterexample: the input `[("A", 2), ("B", -1)]` has a positive entry,
yet the vector used by the analysis sums to `2`, not `1`: the denominator is
the pre-clipping sum (`2 + (-1) = 1`), so clipping the negative entry breaks
the renormalization. -/
theorem C3_normalize_counterexample :
    (0 : ℚ) < 2
      ∧ sumVals (normalizeAbund [("A", 2), ("B", -1)]) = 2
      ∧ sumVals (normalizeAbund [("A", 2), ("B", -1)]) ≠ 1 := by
  norm_num [sumVals, normalizeAbund, max_def]

/-- C3 amended: when every entry is nonnegative and the raw sum is at least
the `1e-12` guard, the analysis vector (also reported as `raw_abundances`)
has its entries clipped at 0 and sums to exactly 1; with negative entries the
denominator is the pre-clipping sum, so the normalization can fail. -/
theorem C3_normalize_amended (O : Oracle) (rs : RefStats) (w : WTable)
    (gp : GPTable) (a : Abund) (hpos : ∀ p ∈ a, 0 ≤ p.2)
    (hsum : 1/10^12 ≤ sumVals a) :
    sumVals (normalizeAbund a) = 1
      ∧ (∀ p ∈ normalizeAbund a, 0 ≤ p.2)
      ∧ (analyzeSample O a rs w gp).raw_abundances = normalizeAbund a := by
  have hpos' : (0 : ℚ) < sumVals a := lt_of_lt_of_le (by norm_num) hsum
  have hM : max (1/10^12) (sumVals a) = sumVals a := max_eq_right hsum
  refine ⟨?_, ?_, rfl⟩
  · calc sumVals (normalizeAbund a)
        = sumVals (a.map fun p => (p.1, max 0 p.2 / sumVals a)) := by
          unfold normalizeAbund
          simp only [hM]
      _ = sumVals a / sumVals a := sumVals_map_div a (sumVals a) hpos
      _ = 1 := div_self (ne_of_gt hpos')
  · intro p hp
    unfold normalizeAbund at hp
    rw [List.mem_map] at hp
    obtain ⟨q, _, rfl⟩ := hp
    exact div_nonneg (le_max_left 0 q.2)
      (le_trans (by norm_num) (le_max_left (1/10^12) (sumVals a)))

/-- C3 amended witness: a concrete all-nonnegative sample. -/
theorem C3_normalize_amended_witness :
    sumVals (normalizeAbund abundLowCov) = 1
      ∧ (∀ p ∈ normalizeAbund abundLowCov, 0 ≤ p.2)
      ∧ (analyzeSample ratOracle abundLowCov cexRs noneW gpHighLod).raw_abundances
          = normalizeAbund abundLowCov :=
  C3_normalize_amended ratOracle cexRs noneW gpHighLod abundLowCov
    (by norm_num [abundLowCov, List.forall_mem_cons])
    (by norm_num [abundLowCov, sumVals])

/-- C10: the reported `composite_score` always lies in `[0, 100]`: the five
blended scores are clipped percentiles (pathogen load inverted), the blend
weights are nonnegative and sum to 1, and the dominance cap only lowers the
value. -/
theorem C10_composite_score_range (O : Oracle) (a0 : Abund) (rs : RefStats)
    (w : WTable) (gp : GPTable) :
    0 ≤ (analyzeSample O a0 rs w gp).composite_score
      ∧ (analyzeSample O a0 rs w gp).composite_score ≤ 100 := by
  rw [analyzeSample_composite_score]
  set a := normalizeAbund a0 with ha
  have hsh := robust_percentile_bounds O.phi (shannonOf O a) rs.shannon
  have hra := robust_percentile_bounds O.phi (bpLrOf O w a) rs.bp_log_ratio
  have hhb := robust_percentile_bounds O.phi (healthBalanceRaw O a) rs.health_balance
  have hsc := robust_percentile_bounds O.phi (scfaOf a) rs.scfa
  have hpa := robust_percentile_bounds O.phi (pathoOf w a) rs.pathogen_load
  have hraw : 0 ≤ compositeRaw O w a rs ∧ compositeRaw O w a rs ≤ 100 := by
    unfold compositeRaw shP raP hbP scP paP
    constructor <;>
      nlinarith [hsh.1, hsh.2, hra.1, hra.2, hhb.1, hhb.2, hsc.1, hsc.2,
        hpa.1, hpa.2]
  have hcomp : 0 ≤ compositeOf O w a rs gp ∧ compositeOf O w a rs gp ≤ 100 := by
    unfold compositeOf
    split_ifs
    · exact ⟨le_min hraw.1 (by norm_num),
        le_trans (min_le_right _ _) (by norm_num)⟩
    · exact hraw
  constructor
  · have := int_le_roundTo 1 (compositeOf O w a rs gp) 0 (by exact_mod_cast hcomp.1)
    simpa using this
  · have := roundTo_le_int 1 (compositeOf O w a rs gp) 100 (by exact_mod_cast hcomp.2)
    simpa using this

/-- C4: whenever the oral-cancer panel is present in `disease_risks`, the
reported `composite_score` is at most 50.0 and the cap event appears in the
decision trace. -/
theorem C4_oscc_dominance_cap (O : Oracle) (a0 : Abund) (rs : RefStats)
    (w : WTable) (gp : GPTable)
    (h : hasKey (analyzeSample O a0 rs w gp).disease_risks "Oral Cancer (OSCC)"
          = true) :
    (analyzeSample O a0 rs w gp).composite_score ≤ 50
      ∧ "Dominance: OSCC risk capped composite at 50"
          ∈ (analyzeSample O a0 rs w gp).decision_trace := by
  rw [analyzeSample_disease_risks] at h
  have hO : hasOscc O (normalizeAbund a0) rs gp = true := h
  constructor
  · rw [analyzeSample_composite_score]
    have hcap : compositeOf O w (normalizeAbund a0) rs gp
        = min (compositeRaw O w (normalizeAbund a0) rs) 50 := by
      unfold compositeOf
      rw [hO]
      simp
    have h50 : compositeOf O w (normalizeAbund a0) rs gp ≤ ((50 : ℤ) : ℚ) := by
      rw [hcap]
      exact_mod_cast min_le_right _ _
    have := roundTo_le_int 1 (compositeOf O w (normalizeAbund a0) rs gp) 50 h50
    simpa using this
  · rw [analyzeSample_trace, hO]
    simp [List.mem_append]

/-- C4 witness: 30% Fusobacterium with an empty percentile table fires the
OSCC extreme path, so the hypothesis holds concretely. -/
theorem C4_oscc_dominance_cap_witness :
    (analyzeSample ratOracle abundFuso cexRs noneW noneGp).composite_score ≤ 50
      ∧ "Dominance: OSCC risk capped composite at 50"
          ∈ (analyzeSample ratOracle abundFuso cexRs noneW noneGp).decision_trace :=
  C4_oscc_dominance_cap ratOracle abundFuso cexRs noneW noneGp (by
    rw [analyzeSample_disease_risks]
    norm_num [risksOf, osccRisks, osccExtremeB, osccHighB, perioRisks, haliRisks,
      haliCondB, hasKey, p99D, p975D, p90D, lodD, fusoOf, getA, normalizeAbund,
      sumVals, noneGp, noneW, abundFuso, ratOracle, cexRs, cexStats, redHits,
      RED_COMPLEX, synergyHits, FUSO_SYNERGY, lowDiversityB, healthSuppressedB,
      hbP, shannonOf, robust_percentile, clipQ, min_def, max_def, List.find?,
      List.filter, List.any, hcOf, dcOf, safe_gmean, HEALTH_CORE, DISEASE_CORE,
      healthBalanceRaw, epsQ])

/-- C5: a coverage fraction below 0.4 forces the "Needs review" label with
grey color, while the clinical health index is still the rounded
interpolated value of the composite (not suppressed). -/
theorem C5_low_coverage_abstains (O : Oracle) (a0 : Abund) (rs : RefStats)
    (w : WTable) (gp : GPTable)
    (h : coverageOf (normalizeAbund a0) gp < 0.4) :
    (analyzeSample O a0 rs w gp).health_category.label = "Needs review"
      ∧ (analyzeSample O a0 rs w gp).health_category.color = "grey"
      ∧ (analyzeSample O a0 rs w gp).clinical_health_index
          = roundTo 2 (chiOfComposite (compositeOf O w (normalizeAbund a0) rs gp)) := by
  have hd : decide (coverageOf (normalizeAbund a0) gp < 0.4) = true := decide_eq_true h
  refine ⟨?_, ?_, rfl⟩
  · rw [analyzeSample_label, hd]
    rfl
  · rw [analyzeSample_color, hd]
    rfl

/-- C5 witness: a sample whose two genera are both below the 0.9 LOD, giving
coverage 0. -/
theorem C5_low_coverage_abstains_witness :
    (analyzeSample ratOracle abundLowCov cexRs noneW gpHighLod).health_category.label
        = "Needs review"
      ∧ (analyzeSample ratOracle abundLowCov cexRs noneW gpHighLod).health_category.color
        = "grey"
      ∧ (analyzeSample ratOracle abundLowCov cexRs noneW gpHighLod).clinical_health_index
        = roundTo 2 (chiOfComposite
            (compositeOf ratOracle noneW (normalizeAbund abundLowCov) cexRs gpHighLod)) :=
  C5_low_coverage_abstains ratOracle abundLowCov cexRs noneW gpHighLod (by
    norm_num [coverageOf, aboveLodCount, consideredCount, normalizeAbund,
      abundLowCov, gpHighLod, lodD, sumVals, List.filter, max_def])

/-- C1 counterexample: with Fusobacterium ABSENT from the percentile table
(`noneGp`), the oral-cancer override gate still fires at 30% Fusobacterium,
because the missing `p97_5`/`p99` default to 0.2/0.25, not to the 1.0
sentinel; so a panel can emit a RiskResult on missing percentile data. -/
theorem C1_missing_genus_counterexample :
    noneGp "Fusobacterium" = none
      ∧ hasKey (analyzeSample ratOracle abundFuso cexRs noneW noneGp).disease_risks
          "Oral Cancer (OSCC)" = true :=
  ⟨rfl, by
    rw [analyzeSample_disease_risks]
    norm_num [risksOf, osccRisks, osccExtremeB, osccHighB, perioRisks, haliRisks,
      haliCondB, hasKey, p99D, p975D, p90D, lodD, fusoOf, getA, normalizeAbund,
      sumVals, noneGp, noneW, abundFuso, ratOracle, cexRs, cexStats, redHits,
      RED_COMPLEX, synergyHits, FUSO_SYNERGY, lowDiversityB, healthSuppressedB,
      hbP, shannonOf, robust_percentile, clipQ, min_def, max_def, List.find?,
      List.filter, List.any, hcOf, dcOf, safe_gmean, HEALTH_CORE, DISEASE_CORE,
      healthBalanceRaw, epsQ]⟩

/-- C1 amended: a genus missing from the percentile table gets the 1.0
sentinel for its p90 gate, so that gate fires exactly when the genus's
abundance reaches 1.0 (never on a proper fraction of the sample); but the
oral-cancer panel's Fusobacterium thresholds default to p97.5 = 0.2 and
p99 = 0.25 when Fusobacterium is missing, so that panel can still fire on
missing data. -/
theorem C1_missing_genus_amended (a : Abund) (gp : GPTable) (g : String)
    (hg : gp g = none) (hf : gp "Fusobacterium" = none) :
    (p90D gp g ≤ getA a g ↔ 1 ≤ getA a g)
      ∧ p975D gp = 0.2 ∧ p99D gp = 0.25 := by
  unfold p90D p975D p99D
  rw [hg, hf]
  norm_num

/-- C1 amended witness: the all-absent table and the 30% Fusobacterium
sample. -/
theorem C1_missing_genus_amended_witness :
    (p90D noneGp "Porphyromonas" ≤ getA abundFuso "Porphyromonas"
        ↔ 1 ≤ getA abundFuso "Porphyromonas")
      ∧ p975D noneGp = 0.2 ∧ p99D noneGp = 0.25 :=
  C1_missing_genus_amended abundFuso noneGp "Porphyromonas" rfl rfl

/-- C6: when all three red-complex genera have a p90 entry, the periodontitis
panel is present iff at least 2 of the 3 genera are at/above their p90
(`redHits` counts with `≥`, so exactly-at-p90 is a hit), with severity
"Moderate" at exactly 2 hits and "High" at 3. -/
theorem C6_red_complex_panel (O : Oracle) (a0 : Abund) (rs : RefStats)
    (w : WTable) (gp : GPTable)
    (_hp90 : ∀ g ∈ RED_COMPLEX, ((gp g).bind GenusP.p90).isSome = true) :
    (hasKey (analyzeSample O a0 rs w gp).disease_risks "Periodontitis (Red Complex)"
        = true ↔ 2 ≤ redHits (normalizeAbund a0) gp)
      ∧ (redHits (normalizeAbund a0) gp = 2 →
          (lookupRisk (analyzeSample O a0 rs w gp).disease_risks
              "Periodontitis (Red Complex)").map RiskRec.level = some "Moderate")
      ∧ (redHits (normalizeAbund a0) gp = 3 →
          (lookupRisk (analyzeSample O a0 rs w gp).disease_risks
              "Periodontitis (Red Complex)").map RiskRec.level = some "High") := by
  rw [analyzeSample_disease_risks]
  refine ⟨?_, ?_, ?_⟩
  · rw [hasKey_risksOf_perio]
    simp
  · intro h2
    rw [lookupRisk_risksOf_perio]
    unfold perioRisks lookupRisk
    rw [h2]
    simp [List.find?]
  · intro h3
    rw [lookupRisk_risksOf_perio]
    unfold perioRisks lookupRisk
    rw [h3]
    simp [List.find?]

/-- C6 witness: two red-complex genera at 50% against p90 = 0.1 give exactly
2 hits and a "Moderate" panel. -/
theorem C6_red_complex_panel_witness :
    hasKey (analyzeSample ratOracle abundRed cexRs noneW gpRed).disease_risks
        "Periodontitis (Red Complex)" = true
      ∧ (lookupRisk (analyzeSample ratOracle abundRed cexRs noneW gpRed).disease_risks
          "Periodontitis (Red Complex)").map RiskRec.level = some "Moderate" := by
  have h := C6_red_complex_panel ratOracle abundRed cexRs noneW gpRed (by
    intro g hg
    fin_cases hg <;> simp [gpRed])
  have hr : redHits (normalizeAbund abundRed) gpRed = 2 := redHits_abundRed
  exact ⟨h.1.mpr (by rw [hr]), h.2.1 hr⟩

/-- If every record of a risk list carries threshold `t`, so does a looked-up
record. -/
theorem lookupRisk_threshold_of_forall {l : List (String × RiskRec)}
    {k : String} {t : ℚ} (hl : ∀ x ∈ l, x.2.threshold = t) {r : RiskRec}
    (hr : lookupRisk l k = some r) : r.threshold = t := by
  unfold lookupRisk at hr
  cases hfind : l.find? fun q => q.1 == k with
  | none =>
    rw [hfind] at hr
    simp at hr
  | some p =>
    rw [hfind] at hr
    simp at hr
    rw [← hr]
    exact hl p (List.mem_of_find?_eq_some hfind)

/-- C7 counterexample: 50% Fusobacterium with reference p97.5 = 0.1 and
p99 = 0.15 fires the OSCC override (triggering threshold
`max(p99, 0.20) = 0.2`), yet the emitted RiskResult records threshold 0.1
(the p97.5 value), not the triggering threshold. -/
theorem C7_threshold_counterexample :
    (lookupRisk (analyzeSample ratOracle abundFusoHigh cexRs noneW gpFusoLow).disease_risks
        "Oral Cancer (OSCC)").map RiskRec.threshold = some 0.1
      ∧ max (p99D gpFusoLow) 0.20 = 0.2
      ∧ (0.1 : ℚ) ≠ 0.2 := by
  have hfu : fusoOf (normalizeAbund abundFusoHigh) = 1/2 := by
    simp [fusoOf, getA_cons, getA_nil, normalizeAbund, abundFusoHigh, sumVals]
    norm_num [max_def]
  have hp99 : p99D gpFusoLow = 3/20 := by simp [p99D, gpFusoLow]
  have hp975 : p975D gpFusoLow = 1/10 := by simp [p975D, gpFusoLow]
  refine ⟨?_, ?_, by norm_num⟩
  · rw [analyzeSample_disease_risks, lookupRisk_risksOf_oscc]
    have hB : osccExtremeB (normalizeAbund abundFusoHigh) gpFusoLow = true := by
      norm_num [osccExtremeB, hfu, hp99, max_def]
    norm_num [osccRisks, hB, lookupRisk, List.find?, hp975]
  · norm_num [hp99, max_def]

/-- C7 amended: the `threshold` field of every emitted RiskResult is the
panel's fixed display threshold — the p97.5 reference value for the
oral-cancer panel on BOTH paths (so the override path does not record its
triggering threshold `max(p99, 0.20)`), the constant 0.02 for periodontitis,
and the constant 0.01 for halitosis. -/
theorem C7_threshold_amended (O : Oracle) (a0 : Abund) (rs : RefStats)
    (w : WTable) (gp : GPTable) :
    (∀ r, lookupRisk (analyzeSample O a0 rs w gp).disease_risks
        "Oral Cancer (OSCC)" = some r → r.threshold = p975D gp)
      ∧ (∀ r, lookupRisk (analyzeSample O a0 rs w gp).disease_risks
          "Periodontitis (Red Complex)" = some r → r.threshold = 0.02)
      ∧ (∀ r, lookupRisk (analyzeSample O a0 rs w gp).disease_risks
          "Halitosis (VSC)" = some r → r.threshold = 0.01) := by
  refine ⟨fun r hr => ?_, fun r hr => ?_, fun r hr => ?_⟩
  · rw [analyzeSample_disease_risks, lookupRisk_risksOf_oscc] at hr
    refine lookupRisk_threshold_of_forall ?_ hr
    unfold osccRisks
    split_ifs <;> simp
  · rw [analyzeSample_disease_risks, lookupRisk_risksOf_perio] at hr
    refine lookupRisk_threshold_of_forall ?_ hr
    unfold perioRisks
    split_ifs <;> simp
  · rw [analyzeSample_disease_risks, lookupRisk_risksOf_hali] at hr
    refine lookupRisk_threshold_of_forall ?_ hr
    unfold haliRisks
    split_ifs <;> simp

/-- C7 amended witness: the fired periodontitis panel of the `abundRed`
sample records the fixed threshold 0.02. -/
theorem C7_threshold_amended_witness :
    (lookupRisk (analyzeSample ratOracle abundRed cexRs noneW gpRed).disease_risks
        "Periodontitis (Red Complex)").map RiskRec.threshold = some 0.02 := by
  cases hfind : lookupRisk (analyzeSample ratOracle abundRed cexRs noneW gpRed).disease_risks
      "Periodontitis (Red Complex)" with
  | none =>
    exfalso
    rw [analyzeSample_disease_risks, lookupRisk_risksOf_perio] at hfind
    unfold perioRisks lookupRisk at hfind
    rw [if_pos (by rw [redHits_abundRed] : 2 ≤ redHits (normalizeAbund abundRed) gpRed)] at hfind
    simp [List.find?] at hfind
  | some r =>
    have := (C7_threshold_amended ratOracle abundRed cexRs noneW gpRed).2.1 r hfind
    simp [this]
